import Mathlib

/-!
# Shallow embedding of the `rn-simple-bottom-sheet` component

This file embeds the gesture/visibility logic of `src/index.tsx` (first
variant of the component) as pure Lean functions and proves the spec's
claims about them.

Modelling conventions:
* JavaScript numbers are rationals (`ℚ`); a value that may be `NaN` (or an
  `undefined` array lookup flowing into arithmetic) is an `Option ℚ` with
  `none` standing for `NaN`/`undefined`.
* Side effects (starting an animation, setting React state, firing a
  warning or a callback) are recorded as fields of explicit result
  structures, one per handler.
* Optional props are `Option`-valued; props of which the source only ever
  uses the truthiness are reduced to `Bool`.
-/

namespace BottomSheet

/-- A JavaScript numeric value that may be `NaN`, as produced e.g. by
arithmetic involving an out-of-bounds array lookup (`undefined`). -/
abbrev JsNum := Option ℚ

/-- JS truthiness of a numeric value: `0`, `NaN` and `undefined` are falsy. -/
def jsTruthy : JsNum → Bool
  | some x => decide (x ≠ 0)
  | none => false

/-- NaN-propagating addition. -/
def jsAdd : JsNum → JsNum → JsNum
  | some a, some b => some (a + b)
  | _, _ => none

/-- NaN-propagating subtraction. -/
def jsSub : JsNum → JsNum → JsNum
  | some a, some b => some (a - b)
  | _, _ => none

/-- NaN-propagating halving (`x / 2`). -/
def jsHalf : JsNum → JsNum
  | some a => some (a / 2)
  | none => none

/-- JS `a > b`: every comparison involving `NaN` is false. -/
def jsGtB : JsNum → JsNum → Bool
  | some a, some b => decide (b < a)
  | _, _ => false

/-- The `IndicatorHeight` constant exported by the source. -/
def IndicatorHeight : ℚ := 36

/-- The component props used by the embedded handlers (first variant of
`src/index.tsx`).  `Option` marks props a caller may omit; `autoHeight`
is reduced to its truthiness; the three callback props are reduced to
whether they are present. -/
structure Props where
  snapPoints : Option (List ℚ) := none
  gap : Option ℚ := none
  springMass : Option ℚ := none
  animationDuration : Option ℚ := none
  autoHeight : Bool := false
  dragable : Option Bool := none
  visibleIndicator : Option Bool := none
  hasOnAutoHeight : Bool := false
  hasOnVisible : Bool := false
  hasOnUnVisible : Bool := false
deriving DecidableEq

/-- The lookup `props.snapPoints?.[0]`. -/
def spFirst (p : Props) : JsNum := p.snapPoints.bind fun l => l[0]?

/-- Truthiness of `props.dragable ?? props.visibleIndicator`. -/
def dragEnabled (p : Props) : Bool :=
  (p.dragable.orElse fun _ => p.visibleIndicator).getD false

/-- Source expression `minFilteredArr[minFilteredArr.length - 1]`: the last element of the snap
points with value ≤ the current visible height `v` (`undefined` when the
filtered array is empty). -/
def lowerBracket (sp : List ℚ) (v : ℚ) : JsNum :=
  (sp.filter fun s => decide (s ≤ v)).getLast?

/-- Source expression `props.snapPoints?.filter(s => s >= v)[0]`: the first snap point with
value ≥ the current visible height `v`. -/
def upperBracket (sp : List ℚ) (v : ℚ) : JsNum :=
  (sp.filter fun s => decide (v ≤ s)).head?

/-- Observable outcome of a drag release (`onPanGestureEnd`, lines 159-222):
the translation the panel is animated toward, whether the close sequence was
triggered, the spring mass used (`none` on the close path, which uses a timed
tween), the final value of the local `h`, and the argument passed to
`props.onAutoHeight` when that callback is configured. -/
structure EndResult where
  target : JsNum
  close : Bool
  springMassUsed : Option ℚ
  hVal : JsNum
  reported : Option JsNum
deriving DecidableEq

/-- Embedding of `onPanGestureEnd` (first variant).  `modalV` is
`modalHeight.value` at release, `nowIn` is the incoming `nowHeight.current`. -/
def onPanGestureEnd (height : ℚ) (p : Props) (modalV nowIn : ℚ) : EndResult :=
  match p.snapPoints with
  | some sp =>
    let now := modalV
    let near0 : JsNum := lowerBracket sp (height - now)
    let near1 : JsNum := upperBracket sp (height - now)
    if jsTruthy sp[0]? && !jsTruthy sp[1]? then
      let h : ℚ := height - sp.headI
      { target := some h, close := false, springMassUsed := some (p.springMass.getD 0.7),
        hVal := some h, reported := if p.hasOnAutoHeight then some (some h) else none }
    else
      if jsGtB (jsSub (some height) (jsAdd near0 (jsHalf (jsSub near1 near0)))) (some now) then
        let h := jsSub (some height) near1
        { target := h, close := false, springMassUsed := some (p.springMass.getD 0.7),
          hVal := h, reported := if p.hasOnAutoHeight then some h else none }
      else
        let h := jsSub (some height) near0
        { target := h, close := false, springMassUsed := some (p.springMass.getD 0.7),
          hVal := h, reported := if p.hasOnAutoHeight then some h else none }
  | none =>
    if decide ((height - nowIn) / 2 < height - modalV) then
      { target := some nowIn, close := false, springMassUsed := some (p.springMass.getD 0.7),
        hVal := some nowIn, reported := if p.hasOnAutoHeight then some (some nowIn) else none }
    else
      { target := some height, close := true, springMassUsed := none,
        hVal := some height, reported := if p.hasOnAutoHeight then some (some height) else none }

/-- Embedding of `onPanGestureActive` (lines 115-157): returns the new value
of `modalHeight.value` after one drag-move event with cumulative delta
`translationY`; the value is unchanged (`modalV`) when the guard rejects the
candidate. -/
def onPanGestureActive (height : ℚ) (p : Props) (nowH modalV translationY : ℚ) : ℚ :=
  let changeHeight := nowH + translationY
  let maximum : ℚ :=
    if p.snapPoints.isSome && decide (1 ≤ (p.snapPoints.getD []).length) then
      height - (p.snapPoints.getD []).getLastD 0 - p.gap.getD 32
    else if (p.autoHeight && dragEnabled p) || (!p.autoHeight && dragEnabled p) then 0
    else nowH
  if (jsTruthy (spFirst p) || (p.autoHeight && dragEnabled p) ||
        (!p.autoHeight && dragEnabled p))
      && decide (changeHeight < height - (spFirst p).getD 0)
      && decide (maximum < changeHeight) then
    changeHeight
  else modalV

/-- Branch taken by the `visible` handle method. -/
inductive VisBranch
  | warnNoConfig
  | autoH
  | explicitH
  | snapFallback
  | warnNoSnap
deriving DecidableEq

/-- Observable outcome of the `visible` handle method: the visibility flag
and `nowHeight.current` after the call, the `withTiming` target and duration
(`none` when no animation is started), which of the two usage warnings was
printed, the branch taken, and whether `props.onVisible` ran. -/
structure VisResult where
  visibleAfter : Bool
  nowAfter : ℚ
  animTarget : Option ℚ
  animDuration : Option ℚ
  warned : Option ℕ
  branch : VisBranch
  onVisibleRun : Bool
deriving DecidableEq

/-- Embedding of the `visible` handle method (lines 229-279).
`childrenHeight` is the measured content height (`childrenHeight.current`),
`bottomInset` is the value returned by `getBottomInset()` (`none` when the
library reports `null`/`undefined`), `modal_height` the optional explicit
argument, and `visible0`/`now0` the state before the call. -/
def visible (height : ℚ) (p : Props) (childrenHeight : Option ℚ) (bottomInset : Option ℚ)
    (modal_height : Option ℚ) (visible0 : Bool) (now0 : ℚ) : VisResult :=
  if !jsTruthy modal_height && !p.snapPoints.isSome && !p.autoHeight then
    { visibleAfter := visible0, nowAfter := now0, animTarget := none, animDuration := none,
      warned := some 1, branch := .warnNoConfig, onVisibleRun := false }
  else if p.autoHeight then
    let autoH := childrenHeight.getD 0 +
      (if p.snapPoints.isSome then IndicatorHeight else 0) + bottomInset.getD 24
    { visibleAfter := true, nowAfter := height - autoH, animTarget := some (height - autoH),
      animDuration := some 250, warned := none, branch := .autoH,
      onVisibleRun := p.hasOnVisible }
  else if jsTruthy modal_height then
    { visibleAfter := true, nowAfter := height - modal_height.getD 0,
      animTarget := some (height - modal_height.getD 0), animDuration := some 250,
      warned := none, branch := .explicitH, onVisibleRun := p.hasOnVisible }
  else if p.snapPoints.isSome && jsTruthy (spFirst p) then
    { visibleAfter := true, nowAfter := height - (spFirst p).getD 0,
      animTarget := some (height - (spFirst p).getD 0), animDuration := some 250,
      warned := none, branch := .snapFallback, onVisibleRun := p.hasOnVisible }
  else
    { visibleAfter := visible0, nowAfter := now0, animTarget := none, animDuration := none,
      warned := some 2, branch := .warnNoSnap, onVisibleRun := false }

/-- Observable outcome of `unVisibleModal` (lines 95-107): the `withTiming`
target and duration, `nowHeight.current` after the call, the `setTimeout`
delay after which the visibility flag is set and `props.onUnVisible` runs. -/
structure CloseResult where
  animTarget : ℚ
  animDuration : ℚ
  nowAfter : ℚ
  timerDelay : ℚ
  visibleAfterTimer : Bool
  onUnVisibleRun : Bool
deriving DecidableEq

/-- Embedding of `unVisibleModal` (lines 95-107). -/
def unVisibleModal (height : ℚ) (p : Props) : CloseResult :=
  { animTarget := height, animDuration := p.animationDuration.getD 250,
    nowAfter := height, timerDelay := p.animationDuration.getD 250 - 50,
    visibleAfterTimer := false, onUnVisibleRun := p.hasOnUnVisible }

/-- Outcome of the snap-point validation `useEffect` (lines 281-293): which
warning was printed (`1` = not ascending, `2` = duplicates) and the content of
the caller's `snapPoints` array after the effect ran. -/
structure EffectResult where
  warned : Option ℕ
  arrayAfter : Option (List ℚ)
deriving DecidableEq

/-- Embedding of the validation `useEffect` (lines 281-293).
`props.snapPoints?.sort((x, y) => x - y)` sorts the caller's array **in
place** and returns the same reference; `JSON.stringify` of the pre-sort
snapshot (the left operand, evaluated first) is compared with the sorted
array, and for a plain number array stringify-equality is list equality.
The JS `Set` size is the number of distinct values. -/
def snapPointsEffect (sp : Option (List ℚ)) : EffectResult :=
  match sp with
  | none => { warned := none, arrayAfter := none }
  | some l =>
    let sorted := l.insertionSort (· ≤ ·)
    if decide (l ≠ sorted) then { warned := some 1, arrayAfter := some sorted }
    else if decide (l.length ≠ l.dedup.length) then
      { warned := some 2, arrayAfter := some sorted }
    else { warned := none, arrayAfter := some sorted }

/-- The drag-move lower bound as claim C5 states it: `height` minus the last
snap point minus the gap when snap points exist, and otherwise the last
committed height (this follows the claim's words, for comparison with the
code's actual bound). -/
def claimedDragLower (p : Props) (height nowH : ℚ) : ℚ :=
  match p.snapPoints with
  | some sp => height - sp.getLastD 0 - p.gap.getD 32
  | none => nowH

/-- The drag-move lower bound the code actually enforces whenever a candidate
is accepted: `height` minus the last snap point minus the gap when a snap
point list with at least one element exists, and `0` otherwise. -/
def amendedDragLower (p : Props) (height : ℚ) : ℚ :=
  if p.snapPoints.isSome && decide (1 ≤ (p.snapPoints.getD []).length) then
    height - (p.snapPoints.getD []).getLastD 0 - p.gap.getD 32
  else 0

/-! ## Helper lemmas on sorted lists and the bracket lookups -/

/-- In a `≤`-sorted list the optional last element bounds every member from
above. -/
theorem sorted_le_getLast? : ∀ (l : List ℚ), l.Sorted (· ≤ ·) →
    ∀ m : ℚ, l.getLast? = some m → ∀ x ∈ l, x ≤ m
  | [], _, _, hm => by simp at hm
  | [a], _, m, hm => by
      intro x hx
      simp only [List.getLast?_singleton, Option.some.injEq] at hm
      simp only [List.mem_singleton] at hx
      simp [hx, ← hm]
  | a :: b :: t, hs, m, hm => by
      intro x hx
      rw [List.getLast?_cons_cons] at hm
      have hs' : (b :: t).Sorted (· ≤ ·) := hs.of_cons
      rcases List.mem_cons.mp hx with rfl | hx'
      · have hmmem : m ∈ b :: t := by
          rcases List.mem_getLast?_eq_getLast (Option.mem_def.mpr hm) with ⟨hne, hEq⟩
          exact hEq ▸ List.getLast_mem hne
        exact List.rel_of_sorted_cons hs m hmmem
      · exact sorted_le_getLast? (b :: t) hs' m hm x hx'

/-- In a `≤`-sorted list the optional head bounds every member from below. -/
theorem sorted_le_head? (l : List ℚ) (hs : l.Sorted (· ≤ ·)) (m : ℚ)
    (hm : l.head? = some m) : ∀ x ∈ l, m ≤ x := by
  cases l with
  | nil => simp at hm
  | cons a t =>
      simp only [List.head?_cons, Option.some.injEq] at hm
      subst hm
      intro x hx
      rcases List.mem_cons.mp hx with rfl | hx'
      · exact le_refl x
      · exact List.rel_of_sorted_cons hs x hx'

/-- When the lower-bracket lookup yields a value, that value is the largest
snap point with visible-height ≤ `v`. -/
theorem lowerBracket_spec (sp : List ℚ) (hs : sp.Sorted (· ≤ ·)) (v lo : ℚ)
    (h : lowerBracket sp v = some lo) :
    lo ∈ sp ∧ lo ≤ v ∧ ∀ s ∈ sp, s ≤ v → s ≤ lo := by
  simp only [lowerBracket] at h
  have hsf : (sp.filter fun s => decide (s ≤ v)).Sorted (· ≤ ·) := hs.filter _
  have hlomem : lo ∈ sp.filter fun s => decide (s ≤ v) := by
    rcases List.mem_getLast?_eq_getLast (Option.mem_def.mpr h) with ⟨hne, hEq⟩
    exact hEq ▸ List.getLast_mem hne
  have hm := List.mem_filter.mp hlomem
  refine ⟨hm.1, of_decide_eq_true hm.2, ?_⟩
  intro s hsmem hsv
  exact sorted_le_getLast? _ hsf lo h s (List.mem_filter.mpr ⟨hsmem, decide_eq_true hsv⟩)

/-- The lower-bracket lookup succeeds as soon as some snap point lies at or
below `v`. -/
theorem lowerBracket_isSome (sp : List ℚ) (v a : ℚ) (ha : a ∈ sp) (hav : a ≤ v) :
    (lowerBracket sp v).isSome = true := by
  simp only [lowerBracket, List.getLast?_isSome]
  exact List.ne_nil_of_mem (List.mem_filter.mpr ⟨ha, decide_eq_true hav⟩)

/-- When the upper-bracket lookup yields a value, that value is the smallest
snap point with visible-height ≥ `v`. -/
theorem upperBracket_spec (sp : List ℚ) (hs : sp.Sorted (· ≤ ·)) (v hi : ℚ)
    (h : upperBracket sp v = some hi) :
    hi ∈ sp ∧ v ≤ hi ∧ ∀ s ∈ sp, v ≤ s → hi ≤ s := by
  simp only [upperBracket] at h
  have hsf : (sp.filter fun s => decide (v ≤ s)).Sorted (· ≤ ·) := hs.filter _
  have hmem : hi ∈ sp.filter fun s => decide (v ≤ s) :=
    List.mem_of_mem_head? (Option.mem_def.mpr h)
  have hm := List.mem_filter.mp hmem
  refine ⟨hm.1, of_decide_eq_true hm.2, ?_⟩
  intro s hsmem hsv
  exact sorted_le_head? _ hsf hi h s (List.mem_filter.mpr ⟨hsmem, decide_eq_true hsv⟩)

/-- The upper-bracket lookup succeeds as soon as some snap point lies at or
above `v`. -/
theorem upperBracket_isSome (sp : List ℚ) (v a : ℚ) (ha : a ∈ sp) (hav : v ≤ a) :
    (upperBracket sp v).isSome = true := by
  simp only [upperBracket, List.head?_isSome]
  exact List.ne_nil_of_mem (List.mem_filter.mpr ⟨ha, decide_eq_true hav⟩)

/-- The lower-bracket lookup fails (JS `undefined`) when every snap point lies
strictly above `v`. -/
theorem lowerBracket_eq_none (sp : List ℚ) (v : ℚ) (h : ∀ s ∈ sp, v < s) :
    lowerBracket sp v = none := by
  simp only [lowerBracket, List.getLast?_eq_none_iff, List.filter_eq_nil_iff]
  intro a ha
  simpa using not_le_of_lt (h a ha)

/-- The upper-bracket lookup fails when every snap point lies strictly below
`v`. -/
theorem upperBracket_eq_none (sp : List ℚ) (v : ℚ) (h : ∀ s ∈ sp, s < v) :
    upperBracket sp v = none := by
  simp only [upperBracket, List.head?_eq_none_iff, List.filter_eq_nil_iff]
  intro a ha
  simpa using not_le_of_lt (h a ha)

/-! ## Claim C1: snap resolution between two brackets -/

/-- C1 (counterexample): with snap points `[100, 300]` on a screen of height
`800`, releasing exactly at the midpoint visible-height `200` (translation
`600`) settles to translation `700`, i.e. to the *smaller* snap point `100`;
the claim's round-up tie-break to the larger snap point `300` (translation
`500`) does not hold. -/
theorem c1_midpoint_counterexample :
    (onPanGestureEnd 800 { snapPoints := some [100, 300] } 600 0).target = some 700 ∧
    (800 : ℚ) - 600 = (100 + 300) / 2 ∧
    some (700 : ℚ) ≠ some ((800 : ℚ) - 300) := by
  refine ⟨?_, by norm_num, by norm_num⟩
  norm_num [onPanGestureEnd, lowerBracket, upperBracket, jsSub, jsAdd, jsHalf, jsGtB,
    jsTruthy, List.filter]

/-- C1 (amended): for a configuration with at least two strictly ascending
nonnegative snap points and a release with visible-height `v = height - modalV`
between the first and last snap point, both bracket lookups succeed, the lower
bracket is the *largest* snap point ≤ `v` and the upper bracket the *smallest*
snap point ≥ `v`, and the release settles (with no close) to whichever bracket
is closer — with a release *exactly at the midpoint* settling to the smaller
snap point (round-down tie-break), and releases strictly past the midpoint
settling to the larger. -/
theorem c1_bracket_resolution (height : ℚ) (p : Props) (sp : List ℚ) (modalV nowIn : ℚ)
    (hsp : p.snapPoints = some sp) (hsort : sp.Sorted (· < ·)) (hlen : 2 ≤ sp.length)
    (h0 : 0 ≤ sp.headI) (hvlo : sp.headI ≤ height - modalV)
    (hvhi : height - modalV ≤ sp.getLastD 0) :
    (lowerBracket sp (height - modalV)).isSome = true ∧
    (upperBracket sp (height - modalV)).isSome = true ∧
    (sp.filter fun s => decide (s ≤ height - modalV)).maximum =
      ((lowerBracket sp (height - modalV)).getD 0 : WithBot ℚ) ∧
    (sp.filter fun s => decide (height - modalV ≤ s)).minimum =
      ((upperBracket sp (height - modalV)).getD 0 : WithBot ℚ) ∧
    (onPanGestureEnd height p modalV nowIn).target =
      some (height -
        (if ((lowerBracket sp (height - modalV)).getD 0 +
              (upperBracket sp (height - modalV)).getD 0) / 2 < height - modalV then
          (upperBracket sp (height - modalV)).getD 0
        else (lowerBracket sp (height - modalV)).getD 0)) ∧
    (onPanGestureEnd height p modalV nowIn).close = false ∧
    (((lowerBracket sp (height - modalV)).getD 0 +
          (upperBracket sp (height - modalV)).getD 0) / 2 = height - modalV →
      (onPanGestureEnd height p modalV nowIn).target =
        some (height - (lowerBracket sp (height - modalV)).getD 0)) ∧
    ((upperBracket sp (height - modalV)).getD 0 - (height - modalV) <
        (height - modalV) - (lowerBracket sp (height - modalV)).getD 0 →
      (onPanGestureEnd height p modalV nowIn).target =
        some (height - (upperBracket sp (height - modalV)).getD 0)) ∧
    ((height - modalV) - (lowerBracket sp (height - modalV)).getD 0 <
        (upperBracket sp (height - modalV)).getD 0 - (height - modalV) →
      (onPanGestureEnd height p modalV nowIn).target =
        some (height - (lowerBracket sp (height - modalV)).getD 0)) := by
  have hsle : sp.Sorted (· ≤ ·) := hsort.le_of_lt
  obtain ⟨a, b, t, rfl⟩ : ∃ a b t, sp = a :: b :: t := by
    match sp, hlen with
    | a :: b :: t, _ => exact ⟨a, b, t, rfl⟩
  have hhead : (a :: b :: t).headI = a := rfl
  rw [hhead] at h0 hvlo
  have hab : a < b := List.rel_of_sorted_cons hsort b (by simp)
  have hbpos : (0 : ℚ) < b := lt_of_le_of_lt h0 hab
  have hb : jsTruthy (some b) = true := by
    simp only [jsTruthy]
    exact decide_eq_true (ne_of_gt hbpos)
  have hgate : (jsTruthy (a :: b :: t)[0]? && !jsTruthy (a :: b :: t)[1]?) = false := by
    simp only [List.getElem?_cons_succ, List.getElem?_cons_zero, hb]
    simp
  have hloS : (lowerBracket (a :: b :: t) (height - modalV)).isSome = true :=
    lowerBracket_isSome _ _ a (by simp) hvlo
  obtain ⟨lo, hlo⟩ := Option.isSome_iff_exists.mp hloS
  have hne : (a :: b :: t) ≠ [] := by simp
  have hlastD : (a :: b :: t).getLastD 0 = (a :: b :: t).getLast hne := by
    rw [List.getLastD_eq_getLast?, List.getLast?_eq_getLast_of_ne_nil hne]
    rfl
  have hlastmem : (a :: b :: t).getLastD 0 ∈ a :: b :: t := by
    rw [hlastD]; exact List.getLast_mem hne
  have hhiS : (upperBracket (a :: b :: t) (height - modalV)).isSome = true :=
    upperBracket_isSome _ _ _ hlastmem hvhi
  obtain ⟨hi, hhi⟩ := Option.isSome_iff_exists.mp hhiS
  obtain ⟨hlomem, hlov, hlomax⟩ := lowerBracket_spec _ hsle _ lo hlo
  obtain ⟨hhimem, hvhi', hhimin⟩ := upperBracket_spec _ hsle _ hi hhi
  rw [hlo, hhi]
  simp only [Option.getD_some, Option.isSome_some, true_and]
  have hmax : ((a :: b :: t).filter fun s => decide (s ≤ height - modalV)).maximum =
      (lo : WithBot ℚ) := by
    apply List.maximum_eq_coe_iff.mpr
    refine ⟨List.mem_filter.mpr ⟨hlomem, decide_eq_true hlov⟩, ?_⟩
    intro x hx
    have hx' := List.mem_filter.mp hx
    exact hlomax x hx'.1 (of_decide_eq_true hx'.2)
  have hmin : ((a :: b :: t).filter fun s => decide (height - modalV ≤ s)).minimum =
      (hi : WithBot ℚ) := by
    apply List.minimum_eq_coe_iff.mpr
    refine ⟨List.mem_filter.mpr ⟨hhimem, decide_eq_true hvhi'⟩, ?_⟩
    intro x hx
    have hx' := List.mem_filter.mp hx
    exact hhimin x hx'.1 (of_decide_eq_true hx'.2)
  have hmain : (onPanGestureEnd height p modalV nowIn).target =
      some (height - (if (lo + hi) / 2 < height - modalV then hi else lo)) ∧
      (onPanGestureEnd height p modalV nowIn).close = false := by
    by_cases hc : (lo + hi) / 2 < height - modalV
    · have hcd : decide (modalV < height - (lo + (hi - lo) / 2)) = true :=
        decide_eq_true (by linarith)
      simp [onPanGestureEnd, hsp, hb, hlo, hhi, jsSub, jsAdd, jsHalf, jsGtB, hcd, hc]
    · have hcd : decide (modalV < height - (lo + (hi - lo) / 2)) = false :=
        decide_eq_false (fun hcon => hc (by linarith))
      simp [onPanGestureEnd, hsp, hb, hlo, hhi, jsSub, jsAdd, jsHalf, jsGtB, hcd, hc]
  refine ⟨hmax, hmin, hmain.1, hmain.2, ?_, ?_, ?_⟩
  · intro htie
    rw [hmain.1, if_neg (by rw [htie]; exact lt_irrefl _)]
  · intro hcloser
    rw [hmain.1, if_pos (by linarith)]
  · intro hcloser
    rw [hmain.1, if_neg (by intro hcon; linarith)]

/-- C1 (witness): the amended theorem applied to snap points `[100, 300]`,
screen height `800` and a release at translation `501` (visible-height `299`,
past the midpoint `200`), which settles to the larger snap point `300`. -/
theorem c1_bracket_resolution_witness :
    (lowerBracket [100, 300] ((800 : ℚ) - 501)).isSome = true ∧
    (upperBracket [100, 300] ((800 : ℚ) - 501)).isSome = true ∧
    (([100, 300] : List ℚ).filter fun s => decide (s ≤ (800 : ℚ) - 501)).maximum =
      ((lowerBracket [100, 300] ((800 : ℚ) - 501)).getD 0 : WithBot ℚ) ∧
    (([100, 300] : List ℚ).filter fun s => decide ((800 : ℚ) - 501 ≤ s)).minimum =
      ((upperBracket [100, 300] ((800 : ℚ) - 501)).getD 0 : WithBot ℚ) ∧
    (onPanGestureEnd 800 { snapPoints := some [100, 300] } 501 0).target =
      some (800 -
        (if ((lowerBracket [100, 300] ((800 : ℚ) - 501)).getD 0 +
              (upperBracket [100, 300] ((800 : ℚ) - 501)).getD 0) / 2 < (800 : ℚ) - 501 then
          (upperBracket [100, 300] ((800 : ℚ) - 501)).getD 0
        else (lowerBracket [100, 300] ((800 : ℚ) - 501)).getD 0)) ∧
    (onPanGestureEnd 800 { snapPoints := some [100, 300] } 501 0).close = false ∧
    (((lowerBracket [100, 300] ((800 : ℚ) - 501)).getD 0 +
          (upperBracket [100, 300] ((800 : ℚ) - 501)).getD 0) / 2 = (800 : ℚ) - 501 →
      (onPanGestureEnd 800 { snapPoints := some [100, 300] } 501 0).target =
        some (800 - (lowerBracket [100, 300] ((800 : ℚ) - 501)).getD 0)) ∧
    ((upperBracket [100, 300] ((800 : ℚ) - 501)).getD 0 - ((800 : ℚ) - 501) <
        ((800 : ℚ) - 501) - (lowerBracket [100, 300] ((800 : ℚ) - 501)).getD 0 →
      (onPanGestureEnd 800 { snapPoints := some [100, 300] } 501 0).target =
        some (800 - (upperBracket [100, 300] ((800 : ℚ) - 501)).getD 0)) ∧
    (((800 : ℚ) - 501) - (lowerBracket [100, 300] ((800 : ℚ) - 501)).getD 0 <
        (upperBracket [100, 300] ((800 : ℚ) - 501)).getD 0 - ((800 : ℚ) - 501) →
      (onPanGestureEnd 800 { snapPoints := some [100, 300] } 501 0).target =
        some (800 - (lowerBracket [100, 300] ((800 : ℚ) - 501)).getD 0)) :=
  c1_bracket_resolution 800 { snapPoints := some [100, 300] } [100, 300] 501 0 rfl
    (by norm_num [List.sorted_cons]) (by norm_num) (by norm_num) (by norm_num) (by norm_num)

/-! ## Claim C9: releases outside the range of the snap points -/

/-- With at least two snap points whose second entry is nonzero, a drag release
takes the bracket branch of `onPanGestureEnd`, whose outcome is determined by
the two bracket lookups (NaN-propagating arithmetic included). -/
theorem onPanGestureEnd_bracket (height : ℚ) (p : Props) (a b : ℚ) (t : List ℚ)
    (modalV nowIn : ℚ) (hsp : p.snapPoints = some (a :: b :: t)) (hb : b ≠ 0) :
    onPanGestureEnd height p modalV nowIn =
      if jsGtB (jsSub (some height) (jsAdd (lowerBracket (a :: b :: t) (height - modalV))
          (jsHalf (jsSub (upperBracket (a :: b :: t) (height - modalV))
            (lowerBracket (a :: b :: t) (height - modalV)))))) (some modalV) then
        { target := jsSub (some height) (upperBracket (a :: b :: t) (height - modalV)),
          close := false, springMassUsed := some (p.springMass.getD 0.7),
          hVal := jsSub (some height) (upperBracket (a :: b :: t) (height - modalV)),
          reported := if p.hasOnAutoHeight then
            some (jsSub (some height) (upperBracket (a :: b :: t) (height - modalV)))
          else none }
      else
        { target := jsSub (some height) (lowerBracket (a :: b :: t) (height - modalV)),
          close := false, springMassUsed := some (p.springMass.getD 0.7),
          hVal := jsSub (some height) (lowerBracket (a :: b :: t) (height - modalV)),
          reported := if p.hasOnAutoHeight then
            some (jsSub (some height) (lowerBracket (a :: b :: t) (height - modalV)))
          else none } := by
  have hbt : jsTruthy (some b) = true := by
    simp only [jsTruthy]
    exact decide_eq_true hb
  simp [onPanGestureEnd, hsp, hbt]

/-- C9 (counterexample): with snap points `[100, 300]` on a screen of height
`800`, a release at translation `400` has visible-height `400`, strictly above
the largest snap point `300` (outside the range spanned by the snap points),
yet the computed settle target is the well-defined number `500`
(= `800 - 300`); snap resolution is therefore not only well-defined inside the
snap-point range. -/
theorem c9_above_range_counterexample :
    (onPanGestureEnd 800 { snapPoints := some [100, 300] } 400 0).target = some 500 ∧
    ((onPanGestureEnd 800 { snapPoints := some [100, 300] } 400 0).target).isSome = true ∧
    ¬ ((800 : ℚ) - 400 ≤ 300) := by
  have h : (onPanGestureEnd 800 { snapPoints := some [100, 300] } 400 0).target = some 500 := by
    norm_num [onPanGestureEnd, lowerBracket, upperBracket, jsSub, jsAdd, jsHalf, jsGtB,
      jsTruthy, List.filter]
  exact ⟨h, by rw [h]; rfl, by norm_num⟩

/-- C9 (amended): with at least two strictly ascending nonnegative snap
points, a release with visible-height strictly below the smallest snap point
makes the lower-bracket lookup `undefined` and the computed settle target NaN
(`none`); the settle target is a well-defined number whenever the
visible-height is at least the smallest snap point — in particular above the
largest snap point the release settles to the largest snap point. -/
theorem c9_outside_range (height : ℚ) (p : Props) (sp : List ℚ) (modalV nowIn : ℚ)
    (hsp : p.snapPoints = some sp) (hsort : sp.Sorted (· < ·)) (hlen : 2 ≤ sp.length)
    (h0 : 0 ≤ sp.headI) :
    (height - modalV < sp.headI →
      lowerBracket sp (height - modalV) = none ∧
      (onPanGestureEnd height p modalV nowIn).target = none ∧
      (onPanGestureEnd height p modalV nowIn).hVal = none) ∧
    (sp.headI ≤ height - modalV →
      ((onPanGestureEnd height p modalV nowIn).target).isSome = true) ∧
    (sp.getLastD 0 < height - modalV →
      (onPanGestureEnd height p modalV nowIn).target = some (height - sp.getLastD 0)) := by
  have hsle : sp.Sorted (· ≤ ·) := hsort.le_of_lt
  obtain ⟨a, b, t, rfl⟩ : ∃ a b t, sp = a :: b :: t := by
    match sp, hlen with
    | a :: b :: t, _ => exact ⟨a, b, t, rfl⟩
  have hhead : (a :: b :: t).headI = a := rfl
  rw [hhead] at h0 ⊢
  have hab : a < b := List.rel_of_sorted_cons hsort b (by simp)
  have hbne : b ≠ 0 := ne_of_gt (lt_of_le_of_lt h0 hab)
  have hbr := onPanGestureEnd_bracket height p a b t modalV nowIn hsp hbne
  have hne : (a :: b :: t) ≠ [] := by simp
  have hlastD : (a :: b :: t).getLastD 0 = (a :: b :: t).getLast hne := by
    rw [List.getLastD_eq_getLast?, List.getLast?_eq_getLast_of_ne_nil hne]
    rfl
  refine ⟨?_, ?_, ?_⟩
  · intro hv
    have hlnone : lowerBracket (a :: b :: t) (height - modalV) = none := by
      apply lowerBracket_eq_none
      intro s hs
      exact lt_of_lt_of_le hv (sorted_le_head? _ hsle a rfl s hs)
    refine ⟨hlnone, ?_, ?_⟩ <;>
      rw [hbr, hlnone] <;> simp [jsAdd, jsSub, jsHalf, jsGtB]
  · intro hv
    have hloS : (lowerBracket (a :: b :: t) (height - modalV)).isSome = true :=
      lowerBracket_isSome _ _ a (by simp) hv
    obtain ⟨lo, hlo⟩ := Option.isSome_iff_exists.mp hloS
    rw [hbr, hlo]
    cases hhi : upperBracket (a :: b :: t) (height - modalV) with
    | none => simp [jsAdd, jsSub, jsHalf, jsGtB]
    | some hi =>
        simp only [jsAdd, jsSub, jsHalf, jsGtB]
        cases hcond : decide (modalV < height - (lo + (hi - lo) / 2)) <;> simp
  · intro hv
    have hunone : upperBracket (a :: b :: t) (height - modalV) = none := by
      apply upperBracket_eq_none
      intro s hs
      have hsle' : s ≤ (a :: b :: t).getLastD 0 := by
        rw [hlastD]
        exact sorted_le_getLast? _ hsle _
          (List.getLast?_eq_getLast_of_ne_nil hne) s hs
      exact lt_of_le_of_lt hsle' hv
    have hlfull : lowerBracket (a :: b :: t) (height - modalV) = (a :: b :: t).getLast? := by
      simp only [lowerBracket]
      congr 1
      apply List.filter_eq_self.mpr
      intro s hs
      apply decide_eq_true
      calc s ≤ (a :: b :: t).getLastD 0 := by
            rw [hlastD]
            exact sorted_le_getLast? _ hsle _
              (List.getLast?_eq_getLast_of_ne_nil hne) s hs
        _ ≤ height - modalV := le_of_lt hv
    rw [hbr, hunone, hlfull, List.getLast?_eq_getLast_of_ne_nil hne]
    simp only [jsAdd, jsSub, jsHalf, jsGtB, hlastD]
    simp

/-- C9 (witness): the amended theorem applied to snap points `[100, 300]`,
screen height `800` and a release at translation `750` (visible-height `50`,
below the smallest snap point `100`), where the settle target is NaN. -/
theorem c9_outside_range_witness :
    ((800 : ℚ) - 750 < ([100, 300] : List ℚ).headI →
      lowerBracket [100, 300] ((800 : ℚ) - 750) = none ∧
      (onPanGestureEnd 800 { snapPoints := some [100, 300] } 750 0).target = none ∧
      (onPanGestureEnd 800 { snapPoints := some [100, 300] } 750 0).hVal = none) ∧
    (([100, 300] : List ℚ).headI ≤ (800 : ℚ) - 750 →
      ((onPanGestureEnd 800 { snapPoints := some [100, 300] } 750 0).target).isSome = true) ∧
    (([100, 300] : List ℚ).getLastD 0 < (800 : ℚ) - 750 →
      (onPanGestureEnd 800 { snapPoints := some [100, 300] } 750 0).target =
        some (800 - ([100, 300] : List ℚ).getLastD 0)) :=
  c9_outside_range 800 { snapPoints := some [100, 300] } [100, 300] 750 0 rfl
    (by norm_num [List.sorted_cons]) (by norm_num) (by norm_num)

/-! ## Claim C7: single snap point -/

/-- C7: with exactly one configured snap point `s`, releasing a drag at any
(nonnegative) visible height settles the panel to translation `height - s`
without closing, animated with a spring of mass `springMass ?? 0.7`. -/
theorem c7_single_snap (height s : ℚ) (p : Props) (modalV nowIn : ℚ)
    (hsp : p.snapPoints = some [s]) (hv : 0 ≤ height - modalV) :
    (onPanGestureEnd height p modalV nowIn).target = some (height - s) ∧
    (onPanGestureEnd height p modalV nowIn).close = false ∧
    (onPanGestureEnd height p modalV nowIn).springMassUsed = some (p.springMass.getD 0.7) := by
  by_cases hs : s = 0
  · subst hs
    have hv' : modalV ≤ height := by linarith
    have hlo : lowerBracket [(0 : ℚ)] (height - modalV) = some 0 := by
      simp [lowerBracket, List.filter_cons, hv']
    by_cases hle : height - modalV ≤ 0
    · have hle' : height ≤ modalV := by linarith
      have hhi : upperBracket [(0 : ℚ)] (height - modalV) = some 0 := by
        simp [upperBracket, List.filter_cons, hle']
      have hlt : ¬ modalV < height := by linarith
      simp [onPanGestureEnd, hsp, jsTruthy, hlo, hhi, jsSub, jsAdd, jsHalf, jsGtB, hlt]
    · have hgt : ¬ height ≤ modalV := by intro hcon; exact hle (by linarith)
      have hhi : upperBracket [(0 : ℚ)] (height - modalV) = none := by
        simp [upperBracket, List.filter_cons, hgt]
      simp [onPanGestureEnd, hsp, jsTruthy, hlo, hhi, jsSub, jsAdd, jsHalf, jsGtB]
  · have hst : jsTruthy (some s) = true := by
      simp only [jsTruthy]
      exact decide_eq_true hs
    simp [onPanGestureEnd, hsp, hst, jsTruthy, List.headI, hs]

/-- C7 (witness): a release at translation `650` (visible-height `150`) with
the single snap point `100` on a screen of height `800` settles to
translation `700`. -/
theorem c7_single_snap_witness :
    (0 : ℚ) ≤ 800 - 650 ∧
    ((onPanGestureEnd 800 { snapPoints := some [100] } 650 0).target = some (800 - 100) ∧
      (onPanGestureEnd 800 { snapPoints := some [100] } 650 0).close = false ∧
      (onPanGestureEnd 800 { snapPoints := some [100] } 650 0).springMassUsed =
        some (({ snapPoints := some [100] } : Props).springMass.getD 0.7)) :=
  ⟨by norm_num, c7_single_snap 800 100 { snapPoints := some [100] } 650 0 rfl (by norm_num)⟩

/-! ## Claim C3: free-drag release -/

/-- C3 (counterexample): with no snap points on a screen of height `800`,
opened at translation `600` (visible-height `200`) and released at translation
`700` — visible-height `100`, *exactly half* the original open
visible-height — the code triggers the close sequence; the claim says the
boundary belongs to "stay open". -/
theorem c3_half_boundary_counterexample :
    (onPanGestureEnd 800 { snapPoints := none } 700 600).close = true ∧
    (800 : ℚ) - 700 = ((800 : ℚ) - 600) / 2 := by
  constructor
  · norm_num [onPanGestureEnd]
  · norm_num

/-- C3 (amended): in free-drag mode a release stays open (settling back to
the original open translation `nowIn`) exactly when the current
visible-height is *strictly greater* than half the original open
visible-height; at exactly half, or below, the close sequence is triggered
(the boundary belongs to "close"). -/
theorem c3_free_drag_release (height : ℚ) (p : Props) (modalV nowIn : ℚ)
    (hsp : p.snapPoints = none) :
    ((onPanGestureEnd height p modalV nowIn).close =
      decide (height - modalV ≤ (height - nowIn) / 2)) ∧
    ((height - nowIn) / 2 < height - modalV →
      (onPanGestureEnd height p modalV nowIn).close = false ∧
      (onPanGestureEnd height p modalV nowIn).target = some nowIn) ∧
    (height - modalV ≤ (height - nowIn) / 2 →
      (onPanGestureEnd height p modalV nowIn).close = true ∧
      (onPanGestureEnd height p modalV nowIn).target = some height) := by
  by_cases hc : (height - nowIn) / 2 < height - modalV
  · have h1 : decide ((height - nowIn) / 2 < height - modalV) = true := decide_eq_true hc
    have h2 : decide (height - modalV ≤ (height - nowIn) / 2) = false :=
      decide_eq_false (not_le_of_lt hc)
    refine ⟨?_, fun _ => ?_, fun hcon => absurd hc (not_lt_of_le hcon)⟩
    · simp [onPanGestureEnd, hsp, h1, h2]
      linarith
    · simp [onPanGestureEnd, hsp, h1, h2]
  · have h1 : decide ((height - nowIn) / 2 < height - modalV) = false := decide_eq_false hc
    have h2 : decide (height - modalV ≤ (height - nowIn) / 2) = true :=
      decide_eq_true (le_of_not_lt hc)
    refine ⟨?_, fun hcon => absurd hcon hc, fun _ => ?_⟩
    · simp [onPanGestureEnd, hsp, h1, h2]
      linarith
    · simp [onPanGestureEnd, hsp, h1, h2]

/-- C3 (witness): one unit above the half boundary (release at translation
`699`, visible-height `101` against original open visible-height `200`) the
panel settles back to the open translation `600` without closing. -/
theorem c3_free_drag_release_witness :
    ((onPanGestureEnd 800 { snapPoints := none } 699 600).close =
      decide ((800 : ℚ) - 699 ≤ ((800 : ℚ) - 600) / 2)) ∧
    (((800 : ℚ) - 600) / 2 < (800 : ℚ) - 699 →
      (onPanGestureEnd 800 { snapPoints := none } 699 600).close = false ∧
      (onPanGestureEnd 800 { snapPoints := none } 699 600).target = some 600) ∧
    ((800 : ℚ) - 699 ≤ ((800 : ℚ) - 600) / 2 →
      (onPanGestureEnd 800 { snapPoints := none } 699 600).close = true ∧
      (onPanGestureEnd 800 { snapPoints := none } 699 600).target = some 800) :=
  c3_free_drag_release 800 { snapPoints := none } 699 600 rfl

/-! ## Claim C8: the value reported to `onAutoHeight` -/

/-- C8 (counterexample): with the single snap point `100` on a screen of
height `800` and `onAutoHeight` configured, a release invokes the callback
with `700` — the settled *translation* (`800 - 100`) — while the resolved
visible height (the distance from the bottom of the screen at which the panel
settles) is `100`; the callback therefore does not receive the visible
height. -/
theorem c8_reported_value_counterexample :
    (onPanGestureEnd 800 { snapPoints := some [100], hasOnAutoHeight := true } 650 0).reported =
      some (some 700) ∧
    (800 : ℚ) - 700 = 100 ∧
    some (some (700 : ℚ)) ≠ some (some (100 : ℚ)) := by
  refine ⟨?_, by norm_num, by norm_num⟩
  norm_num [onPanGestureEnd, jsTruthy, List.headI]

/-- C8 (amended): whenever `onAutoHeight` is configured, every drag release
invokes it with exactly the settled translation (the `withSpring`/`withTiming`
target, i.e. screen height minus the resolved visible height), never with the
visible height itself. -/
theorem c8_reported_is_translation (height : ℚ) (p : Props) (modalV nowIn : ℚ)
    (h : p.hasOnAutoHeight = true) :
    (onPanGestureEnd height p modalV nowIn).reported =
      some ((onPanGestureEnd height p modalV nowIn).target) ∧
    (onPanGestureEnd height p modalV nowIn).hVal =
      (onPanGestureEnd height p modalV nowIn).target := by
  cases hsp : p.snapPoints with
  | none =>
      cases hcond : decide ((height - nowIn) / 2 < height - modalV) <;>
        simp [onPanGestureEnd, hsp, h, hcond]
  | some sp =>
      cases hg : (jsTruthy sp[0]? && !jsTruthy sp[1]?) with
      | true => simp [onPanGestureEnd, hsp, h, hg]
      | false =>
          cases hcond : jsGtB (jsSub (some height) (jsAdd (lowerBracket sp (height - modalV))
              (jsHalf (jsSub (upperBracket sp (height - modalV))
                (lowerBracket sp (height - modalV)))))) (some modalV) <;>
            simp [onPanGestureEnd, hsp, h, hg, hcond]

/-- C8 (witness): the amended theorem at the counterexample's configuration:
the callback argument equals the settled translation. -/
theorem c8_reported_is_translation_witness :
    ({ snapPoints := some [100], hasOnAutoHeight := true } : Props).hasOnAutoHeight = true ∧
    ((onPanGestureEnd 800 { snapPoints := some [100], hasOnAutoHeight := true } 650 0).reported =
      some ((onPanGestureEnd 800 { snapPoints := some [100], hasOnAutoHeight := true } 650 0).target) ∧
    (onPanGestureEnd 800 { snapPoints := some [100], hasOnAutoHeight := true } 650 0).hVal =
      (onPanGestureEnd 800 { snapPoints := some [100], hasOnAutoHeight := true } 650 0).target) :=
  ⟨rfl, c8_reported_is_translation 800
    { snapPoints := some [100], hasOnAutoHeight := true } 650 0 rfl⟩

/-! ## Claims C2 and C10: the `visible` handle method -/

/-- A truthy first snap point forces a present snap-point list of length at
least one. -/
theorem spFirst_truthy_snap (p : Props) (h : jsTruthy (spFirst p) = true) :
    (p.snapPoints.isSome && decide (1 ≤ (p.snapPoints.getD []).length)) = true := by
  cases hps : p.snapPoints with
  | none => simp [spFirst, hps, jsTruthy] at h
  | some l =>
      cases l with
      | nil => simp [spFirst, hps, jsTruthy] at h
      | cons a t => simp [hps]

/-- C2 (counterexample): with snap points `[100]` *and* `autoHeight` enabled
(measured content height `50`, bottom inset `24`, screen height `800`), a call
to the open operation with no explicit height animates to the auto-height
target `690` (`800 - (50 + 36 + 24)`), not to the first snap point target
`700` (`800 - 100`): the first-snap-point fallback does not take priority
over auto-height. -/
theorem c2_autoheight_priority_counterexample :
    (visible 800 { snapPoints := some [100], autoHeight := true } (some 50) (some 24)
      none false 0).animTarget = some 690 ∧
    (visible 800 { snapPoints := some [100], autoHeight := true } (some 50) (some 24)
      none false 0).branch = VisBranch.autoH ∧
    some (690 : ℚ) ≠ some ((800 : ℚ) - 100) := by
  refine ⟨?_, ?_, by norm_num⟩ <;>
    norm_num [visible, IndicatorHeight, jsTruthy]

/-- C2 (amended): the open operation's actual priority order is auto-height
first (when `autoHeight` is enabled it wins even over an explicit height
argument), then the explicit height argument, then the first snap point; when
neither a truthy explicit height, nor auto-height, nor a truthy first snap
point is available, the call changes no state and only reports a usage
warning. -/
theorem c2_open_priority (height : ℚ) (p : Props) (ch bi mh : Option ℚ) (v0 : Bool) (n0 : ℚ) :
    (p.autoHeight = true →
      (visible height p ch bi mh v0 n0).branch = VisBranch.autoH ∧
      (visible height p ch bi mh v0 n0).animTarget =
        some (height - (ch.getD 0 +
          (if p.snapPoints.isSome then IndicatorHeight else 0) + bi.getD 24)) ∧
      (visible height p ch bi mh v0 n0).visibleAfter = true) ∧
    (p.autoHeight = false → jsTruthy mh = true →
      (visible height p ch bi mh v0 n0).branch = VisBranch.explicitH ∧
      (visible height p ch bi mh v0 n0).animTarget = some (height - mh.getD 0)) ∧
    (p.autoHeight = false → jsTruthy mh = false → jsTruthy (spFirst p) = true →
      (visible height p ch bi mh v0 n0).branch = VisBranch.snapFallback ∧
      (visible height p ch bi mh v0 n0).animTarget = some (height - (spFirst p).getD 0)) ∧
    (p.autoHeight = false → jsTruthy mh = false → jsTruthy (spFirst p) = false →
      (visible height p ch bi mh v0 n0).visibleAfter = v0 ∧
      (visible height p ch bi mh v0 n0).nowAfter = n0 ∧
      (visible height p ch bi mh v0 n0).animTarget = none ∧
      ((visible height p ch bi mh v0 n0).warned).isSome = true) := by
  refine ⟨fun ha => ?_, fun ha hm => ?_, fun ha hm hsp1 => ?_, fun ha hm hsp1 => ?_⟩
  · simp [visible, ha]
  · simp [visible, ha, hm]
  · have hspS : p.snapPoints.isSome = true :=
      (Bool.and_eq_true_iff.mp (spFirst_truthy_snap p hsp1)).1
    simp [visible, ha, hm, hsp1, hspS]
  · cases hspS : p.snapPoints.isSome with
    | false => simp [visible, ha, hm, hspS]
    | true => simp [visible, ha, hm, hsp1, hspS]

/-- C2 (witness): the amended priority theorem applied with snap points
`[100]`, auto-height off, and no explicit height: the call falls back to the
first snap point. -/
theorem c2_open_priority_witness :
    (({ snapPoints := some [100] } : Props).autoHeight = true →
      (visible 800 { snapPoints := some [100] } none none none false 0).branch =
        VisBranch.autoH ∧
      (visible 800 { snapPoints := some [100] } none none none false 0).animTarget =
        some (800 - ((none : Option ℚ).getD 0 +
          (if ({ snapPoints := some [100] } : Props).snapPoints.isSome then IndicatorHeight
            else 0) + (none : Option ℚ).getD 24)) ∧
      (visible 800 { snapPoints := some [100] } none none none false 0).visibleAfter = true) ∧
    (({ snapPoints := some [100] } : Props).autoHeight = false →
      jsTruthy none = true →
      (visible 800 { snapPoints := some [100] } none none none false 0).branch =
        VisBranch.explicitH ∧
      (visible 800 { snapPoints := some [100] } none none none false 0).animTarget =
        some (800 - (none : Option ℚ).getD 0)) ∧
    (({ snapPoints := some [100] } : Props).autoHeight = false →
      jsTruthy none = false →
      jsTruthy (spFirst { snapPoints := some [100] }) = true →
      (visible 800 { snapPoints := some [100] } none none none false 0).branch =
        VisBranch.snapFallback ∧
      (visible 800 { snapPoints := some [100] } none none none false 0).animTarget =
        some (800 - (spFirst { snapPoints := some [100] }).getD 0)) ∧
    (({ snapPoints := some [100] } : Props).autoHeight = false →
      jsTruthy none = false →
      jsTruthy (spFirst { snapPoints := some [100] }) = false →
      (visible 800 { snapPoints := some [100] } none none none false 0).visibleAfter = false ∧
      (visible 800 { snapPoints := some [100] } none none none false 0).nowAfter = 0 ∧
      (visible 800 { snapPoints := some [100] } none none none false 0).animTarget = none ∧
      ((visible 800 { snapPoints := some [100] } none none none false 0).warned).isSome =
        true) :=
  c2_open_priority 800 { snapPoints := some [100] } none none none false 0

/-- C10: calling the open operation with the explicit height argument `0` is
treated exactly as calling it with no argument (the zero is falsy), and with
no snap points and auto-height disabled the call leaves the visibility flag,
the committed height and the animated height untouched, emits the usage
warning, and never takes the explicit-height branch. -/
theorem c10_zero_height_open (height : ℚ) (p : Props) (ch bi : Option ℚ) (v0 : Bool) (n0 : ℚ) :
    visible height p ch bi (some 0) v0 n0 = visible height p ch bi none v0 n0 ∧
    (p.snapPoints = none → p.autoHeight = false →
      (visible height p ch bi (some 0) v0 n0).visibleAfter = v0 ∧
      (visible height p ch bi (some 0) v0 n0).nowAfter = n0 ∧
      (visible height p ch bi (some 0) v0 n0).animTarget = none ∧
      (visible height p ch bi (some 0) v0 n0).warned = some 1 ∧
      (visible height p ch bi (some 0) v0 n0).branch = VisBranch.warnNoConfig ∧
      (visible height p ch bi (some 0) v0 n0).branch ≠ VisBranch.explicitH) := by
  constructor
  · simp [visible, jsTruthy]
  · intro hsp ha
    simp [visible, jsTruthy, hsp, ha]

/-- C10 (witness): the zero-height call on a bare configuration only warns. -/
theorem c10_zero_height_open_witness :
    visible 800 ({} : Props) none none (some 0) false 0 =
      visible 800 ({} : Props) none none none false 0 ∧
    (({} : Props).snapPoints = none → ({} : Props).autoHeight = false →
      (visible 800 ({} : Props) none none (some 0) false 0).visibleAfter = false ∧
      (visible 800 ({} : Props) none none (some 0) false 0).nowAfter = 0 ∧
      (visible 800 ({} : Props) none none (some 0) false 0).animTarget = none ∧
      (visible 800 ({} : Props) none none (some 0) false 0).warned = some 1 ∧
      (visible 800 ({} : Props) none none (some 0) false 0).branch =
        VisBranch.warnNoConfig ∧
      (visible 800 ({} : Props) none none (some 0) false 0).branch ≠
        VisBranch.explicitH) :=
  c10_zero_height_open 800 {} none none false 0

/-! ## Claim C5: drag-move clamp acceptance -/

/-- C5 (counterexample): with no snap points and `dragable` enabled, starting
from committed translation `500` a drag with cumulative delta `-200` *is*
applied (the animated height becomes `300`), although the candidate `300` is
not above the claim's lower bound for the unconstrained case (the last
committed height `500`); the code's lower bound there is `0`, not the last
committed height. -/
theorem c5_soft_stop_counterexample :
    onPanGestureActive 800 { dragable := some true } 500 500 (-200) = 300 ∧
    (300 : ℚ) ≠ 500 ∧
    ¬ (claimedDragLower { dragable := some true } 800 500 < 500 + (-200 : ℚ)) := by
  refine ⟨?_, by norm_num, ?_⟩
  · norm_num [onPanGestureActive, spFirst, dragEnabled, jsTruthy, Option.orElse]
  · norm_num [claimedDragLower]

/-- C5 (amended): a drag-move candidate (`nowH + ty`) is applied exactly when
movement is enabled (truthy first snap point, or drag toggle
`dragable ?? visibleIndicator`) and the candidate lies strictly between the
code's bounds: below `height - (first snap point ?? 0)` and above
`height - last snap point - gap` when a nonempty snap-point list exists and
`0` otherwise; every other drag-move leaves the animated height unchanged
(`modalV`), a soft stop.  The `nowHeight` lower bound of the source's
`getMaximum` is unreachable: whenever it would apply, the enabling guard is
false. -/
theorem c5_drag_clamp (height : ℚ) (p : Props) (nowH modalV ty : ℚ) :
    onPanGestureActive height p nowH modalV ty =
      if (jsTruthy (spFirst p) || dragEnabled p)
          && decide (nowH + ty < height - (spFirst p).getD 0)
          && decide (amendedDragLower p height < nowH + ty) then nowH + ty
      else modalV := by
  cases ha : p.autoHeight with
  | true =>
      cases hd : dragEnabled p with
      | true =>
          cases hsp : (p.snapPoints.isSome && decide (1 ≤ (p.snapPoints.getD []).length)) <;>
            simp [onPanGestureActive, amendedDragLower, hsp, hd, ha]
      | false =>
          cases hsp : (p.snapPoints.isSome && decide (1 ≤ (p.snapPoints.getD []).length)) with
          | true => simp [onPanGestureActive, amendedDragLower, hsp, hd, ha]
          | false =>
              have hf : jsTruthy (spFirst p) = false := by
                cases hft : jsTruthy (spFirst p) with
                | false => rfl
                | true => rw [spFirst_truthy_snap p hft] at hsp; exact absurd hsp (by simp)
              simp [onPanGestureActive, amendedDragLower, hsp, hd, ha, hf]
  | false =>
      cases hd : dragEnabled p with
      | true =>
          cases hsp : (p.snapPoints.isSome && decide (1 ≤ (p.snapPoints.getD []).length)) <;>
            simp [onPanGestureActive, amendedDragLower, hsp, hd, ha]
      | false =>
          cases hsp : (p.snapPoints.isSome && decide (1 ≤ (p.snapPoints.getD []).length)) with
          | true => simp [onPanGestureActive, amendedDragLower, hsp, hd, ha]
          | false =>
              have hf : jsTruthy (spFirst p) = false := by
                cases hft : jsTruthy (spFirst p) with
                | false => rfl
                | true => rw [spFirst_truthy_snap p hft] at hsp; exact absurd hsp (by simp)
              simp [onPanGestureActive, amendedDragLower, hsp, hd, ha, hf]

/-! ## Claim C6: close timing -/

/-- C6: the close operation animates the panel to the fully-off-screen
translation (`height`) over the configured duration (`animationDuration`,
default `250`), and the visibility flag is set to false — followed by the
optional close callback — on a timer whose delay is exactly that duration
minus the fixed 50-unit pre-unmount margin. -/
theorem c6_close_timing (height : ℚ) (p : Props) :
    (unVisibleModal height p).animTarget = height ∧
    (unVisibleModal height p).animDuration = p.animationDuration.getD 250 ∧
    (unVisibleModal height p).timerDelay = (unVisibleModal height p).animDuration - 50 ∧
    (unVisibleModal height p).visibleAfterTimer = false ∧
    (unVisibleModal height p).onUnVisibleRun = p.hasOnUnVisible ∧
    (p.animationDuration = none →
      (unVisibleModal height p).animDuration = 250 ∧
      (unVisibleModal height p).timerDelay = 200) := by
  refine ⟨rfl, rfl, rfl, rfl, rfl, fun h => ?_⟩
  rw [unVisibleModal]
  simp [h]
  norm_num

/-- C6 (witness): closing with no configured duration uses 250 time-units and
flips the flag after 200. -/
theorem c6_close_timing_witness :
    (unVisibleModal 800 ({} : Props)).animTarget = 800 ∧
    (unVisibleModal 800 ({} : Props)).animDuration =
      ({} : Props).animationDuration.getD 250 ∧
    (unVisibleModal 800 ({} : Props)).timerDelay =
      (unVisibleModal 800 ({} : Props)).animDuration - 50 ∧
    (unVisibleModal 800 ({} : Props)).visibleAfterTimer = false ∧
    (unVisibleModal 800 ({} : Props)).onUnVisibleRun = ({} : Props).hasOnUnVisible ∧
    (({} : Props).animationDuration = none →
      (unVisibleModal 800 ({} : Props)).animDuration = 250 ∧
      (unVisibleModal 800 ({} : Props)).timerDelay = 200) :=
  c6_close_timing 800 {}

/-! ## Claim C4: snap-point validation effect -/

/-- C4 (code bug): the validation effect on the unsorted input `[20, 10]`
does warn (ascending-order warning) and does not crash, but it leaves the
caller's array sorted in place as `[10, 20]` — the input *is* mutated,
because `Array.prototype.sort` sorts in place; on the duplicate input
`[10, 10]` it emits the duplicate warning and the array content is
unchanged. -/
theorem c4_validation_mutates :
    (snapPointsEffect (some [20, 10])).warned = some 1 ∧
    (snapPointsEffect (some [20, 10])).arrayAfter = some [10, 20] ∧
    some [(10 : ℚ), 20] ≠ some [(20 : ℚ), 10] ∧
    (snapPointsEffect (some [10, 10])).warned = some 2 ∧
    (snapPointsEffect (some [10, 10])).arrayAfter = some [10, 10] := by
  refine ⟨?_, ?_, ?_, ?_, ?_⟩ <;>
    norm_num [snapPointsEffect, List.insertionSort, List.orderedInsert, List.dedup,
      List.pwFilter]

end BottomSheet
